import Mathlib

/-!
Verification of the rs9p 9P2000.L server core (crates/rs9p).

This file is a shallow embedding, in Lean 4, of the parts of the rs9p
crate that the specification talks about:

* the data model of `src/fcall.rs` (the `FCall` tagged union, the fixed
  structures `QId`, `StatFs`, `Time`, `Stat`, `SetAttr`, `DirEntry`,
  `DirEntryData`, `Data`, `Flock`, `Getlock`, the bitflag types, the
  message-type table `MsgType`, and the helper function `FCall::newfid`);
* the wire codec of `src/serialize.rs` (`impl Encodable for Msg` and
  `impl Decodable for Msg`, together with the per-type encoders and
  decoders they are built from);
* the per-connection dispatcher of `src/srv.rs` (`dispatch_once`, the
  worker body spawned by `dispatch`, and the default implementations of
  `Filesystem::rversion` and `Filesystem::rflush`).

Conventions of the embedding:

* machine integers (`u8`, `u16`, `u32`, `u64`) are `Nat`; where the Rust
  code casts (`as u16`, `as u32`) the embedding takes the value modulo
  `2^16` or `2^32`;
* a wire byte is a `Nat` (encoders only ever emit values `< 256`);
* a Rust `String` is its UTF-8 byte sequence, a `List Nat`; the decoder's
  `String::from_utf8` validation is the byte-level checker `validUtf8`;
* bitflag values are their underlying integer; `from_bits_truncate`
  becomes a bitwise `&&&` with the union of the declared flag bits;
* `Result<T, Error>` is `Except Err T`, state threading through the
  shared fid table is made explicit.
-/

namespace Rs9p

/-! ## Errors

The crate's `error` module (declared `pub mod error` in `lib.rs`) carries
the numeric-errno error variant `Error::No(errno)` that `srv.rs` raises
and that `dispatch` turns into an `Rlerror` via `e.errno()`. -/

/-- Modelled from the spec: the `error` module itself is not among the
provided sources, only its uses in `srv.rs`; per spec section 7 every
failure collapses to a numeric errno that is emitted as `Rlerror{ecode}`.
`Err.No e` is `error::Error::No(errno)` and `Err.errno` is `e.errno()`. -/
inductive Err : Type where
  | No : Nat → Err
  deriving DecidableEq, Repr

def Err.errno : Err → Nat
  | .No e => e

instance {ε α : Type} [DecidableEq ε] [DecidableEq α] : DecidableEq (Except ε α) := fun x y =>
  match x, y with
  | .ok a, .ok b =>
      if h : a = b then .isTrue (by rw [h]) else .isFalse (by simp [h])
  | .error a, .error b =>
      if h : a = b then .isTrue (by rw [h]) else .isFalse (by simp [h])
  | .ok _, .error _ => .isFalse (by simp)
  | .error _, .ok _ => .isFalse (by simp)

/-- Linux errno: bad file descriptor (unknown fid). -/
def EBADF : Nat := 9

/-- Linux errno: protocol error (missing newfid slot). -/
def EPROTO : Nat := 71

/-- Linux errno: operation not supported (unimplemented backend hook). -/
def EOPNOTSUPP : Nat := 95

/-! ## Protocol constants (fcall.rs) -/

/-- The byte sequence of the version string "9P2000.L". -/
def P92000L : List Nat := [0x39, 0x50, 0x32, 0x30, 0x30, 0x30, 0x2E, 0x4C]

/-- The byte sequence of the fallback version string "unknown". -/
def VERSION_UNKNOWN : List Nat := [0x75, 0x6E, 0x6B, 0x6E, 0x6F, 0x77, 0x6E]

/-- Special tag for TVersion/RVersion, `NOTAG = !0u16`. -/
def NOTAG : Nat := 0xFFFF

/-- Special fid meaning "no fid", `NOFID = !0u32`. -/
def NOFID : Nat := 0xFFFFFFFF

/-! ## Bitflag truncation (bitflags from_bits_truncate)

Each bitflag type keeps exactly the union of its declared flag bits. -/

/-- QIdType flags DIR..LINK cover every bit of a u8. -/
def qidTypeTruncate (n : Nat) : Nat := n &&& 0xFF

/-- GetAttrMask declared bits (including BASIC and ALL) union to 0x3fff. -/
def getAttrMaskTruncate (n : Nat) : Nat := n &&& 0x3FFF

/-- SetAttrMask declared bits union to 0x1ff. -/
def setAttrMaskTruncate (n : Nat) : Nat := n &&& 0x1FF

/-- LockType declared bits (RDLOCK 0, WRLOCK 1, UNLOCK 2) union to 3. -/
def lockTypeTruncate (n : Nat) : Nat := n &&& 0x3

/-- LockFlag declared bits (BLOCK 1, RECLAIM 2) union to 3. -/
def lockFlagTruncate (n : Nat) : Nat := n &&& 0x3

/-- LockStatus declared bits (SUCCESS 0 .. GRACE 3) union to 3. -/
def lockStatusTruncate (n : Nat) : Nat := n &&& 0x3

/-! ## Data model (fcall.rs) -/

/-- Server-side file identity: `typ:u8` bitfield, `version:u32`, `path:u64`. -/
structure QId : Type where
  typ : Nat
  version : Nat
  path : Nat
  deriving DecidableEq, Repr

/-- Filesystem statistics, `struct StatFs`. -/
structure StatFs : Type where
  typ : Nat
  bsize : Nat
  blocks : Nat
  bfree : Nat
  bavail : Nat
  files : Nat
  ffree : Nat
  fsid : Nat
  namelen : Nat
  deriving DecidableEq, Repr

/-- Time with `sec:u64`, `nsec:u64`. -/
structure Time : Type where
  sec : Nat
  nsec : Nat
  deriving DecidableEq, Repr

/-- File attributes, `struct Stat`. -/
structure Stat : Type where
  mode : Nat
  uid : Nat
  gid : Nat
  nlink : Nat
  rdev : Nat
  size : Nat
  blksize : Nat
  blocks : Nat
  atime : Time
  mtime : Time
  ctime : Time
  deriving DecidableEq, Repr

/-- Subset of `Stat` used by TSetAttr. -/
structure SetAttr : Type where
  mode : Nat
  uid : Nat
  gid : Nat
  size : Nat
  atime : Time
  mtime : Time
  deriving DecidableEq, Repr

/-- Directory entry of RReadDir: qid, offset, d_type byte, name. -/
structure DirEntry : Type where
  qid : QId
  offset : Nat
  typ : Nat
  name : List Nat
  deriving DecidableEq, Repr

/-- Byte size of one encoded `DirEntry`: 13 (qid) + 8 (offset) + 1 (typ)
+ 2 (name length prefix) + name bytes, as `DirEntry::size`. -/
def DirEntry.size (e : DirEntry) : Nat := 13 + 8 + 1 + 2 + e.name.length

/-- Total byte size of a directory-entry list, as `DirEntryData::size`. -/
def dirEntryDataSize (es : List DirEntry) : Nat :=
  es.foldl (fun a e => a + e.size) 0

/-- File lock request, `struct Flock`. -/
structure Flock : Type where
  typ : Nat
  flags : Nat
  start : Nat
  length : Nat
  proc_id : Nat
  client_id : List Nat
  deriving DecidableEq, Repr

/-- Lock query, `struct Getlock`. -/
structure Getlock : Type where
  typ : Nat
  start : Nat
  length : Nat
  proc_id : Nat
  client_id : List Nat
  deriving DecidableEq, Repr

set_option maxHeartbeats 2000000 in
/-- The 9P message union, `enum FCall`, one variant per operation.
Strings are their UTF-8 bytes (`List Nat`); `Data` payloads and
`DirEntryData` are inlined as lists. -/
inductive FCall : Type where
  | RlError (ecode : Nat)
  | TStatFs (fid : Nat)
  | RStatFs (statfs : StatFs)
  | TlOpen (fid : Nat) (flags : Nat)
  | RlOpen (qid : QId) (iounit : Nat)
  | TlCreate (fid : Nat) (name : List Nat) (flags : Nat) (mode : Nat) (gid : Nat)
  | RlCreate (qid : QId) (iounit : Nat)
  | TSymlink (fid : Nat) (name : List Nat) (symtgt : List Nat) (gid : Nat)
  | RSymlink (qid : QId)
  | TMkNod (dfid : Nat) (name : List Nat) (mode : Nat) (major : Nat) (minor : Nat) (gid : Nat)
  | RMkNod (qid : QId)
  | TRename (fid : Nat) (dfid : Nat) (name : List Nat)
  | RRename
  | TReadLink (fid : Nat)
  | RReadLink (target : List Nat)
  | TGetAttr (fid : Nat) (req_mask : Nat)
  | RGetAttr (valid : Nat) (qid : QId) (stat : Stat)
  | TSetAttr (fid : Nat) (valid : Nat) (stat : SetAttr)
  | RSetAttr
  | TxAttrWalk (fid : Nat) (newfid : Nat) (name : List Nat)
  | RxAttrWalk (size : Nat)
  | TxAttrCreate (fid : Nat) (name : List Nat) (attr_size : Nat) (flags : Nat)
  | RxAttrCreate
  | TReadDir (fid : Nat) (offset : Nat) (count : Nat)
  | RReadDir (data : List DirEntry)
  | TFSync (fid : Nat)
  | RFSync
  | TLock (fid : Nat) (flock : Flock)
  | RLock (status : Nat)
  | TGetLock (fid : Nat) (flock : Getlock)
  | RGetLock (flock : Getlock)
  | TLink (dfid : Nat) (fid : Nat) (name : List Nat)
  | RLink
  | TMkDir (dfid : Nat) (name : List Nat) (mode : Nat) (gid : Nat)
  | RMkDir (qid : QId)
  | TRenameAt (olddirfid : Nat) (oldname : List Nat) (newdirfid : Nat) (newname : List Nat)
  | RRenameAt
  | TUnlinkAt (dirfd : Nat) (name : List Nat) (flags : Nat)
  | RUnlinkAt
  | TAuth (afid : Nat) (uname : List Nat) (aname : List Nat) (n_uname : Nat)
  | RAuth (aqid : QId)
  | TAttach (fid : Nat) (afid : Nat) (uname : List Nat) (aname : List Nat) (n_uname : Nat)
  | RAttach (qid : QId)
  | TVersion (msize : Nat) (version : List Nat)
  | RVersion (msize : Nat) (version : List Nat)
  | TFlush (oldtag : Nat)
  | RFlush
  | TWalk (fid : Nat) (newfid : Nat) (wnames : List (List Nat))
  | RWalk (wqids : List QId)
  | TRead (fid : Nat) (offset : Nat) (count : Nat)
  | RRead (data : List Nat)
  | TWrite (fid : Nat) (offset : Nat) (data : List Nat)
  | RWrite (count : Nat)
  | TClunk (fid : Nat)
  | RClunk
  | TRemove (fid : Nat)
  | RRemove
  deriving Repr

/-- Message types, `enum MsgType` (discriminants in `msgTypeByte`).
The commented-out legacy 9P2000 types (TOpen 112, TCreate 114, TStat 124,
TWStat 126 and their replies) have no constructor, as in the source. -/
inductive MsgType : Type where
  | TlError | RlError
  | TStatFs | RStatFs
  | TlOpen | RlOpen
  | TlCreate | RlCreate
  | TSymlink | RSymlink
  | TMkNod | RMkNod
  | TRename | RRename
  | TReadLink | RReadLink
  | TGetAttr | RGetAttr
  | TSetAttr | RSetAttr
  | TxAttrWalk | RxAttrWalk
  | TxAttrCreate | RxAttrCreate
  | TReadDir | RReadDir
  | TFSync | RFSync
  | TLock | RLock
  | TGetLock | RGetLock
  | TLink | RLink
  | TMkDir | RMkDir
  | TRenameAt | RRenameAt
  | TUnlinkAt | RUnlinkAt
  | TVersion | RVersion
  | TAuth | RAuth
  | TAttach | RAttach
  | TFlush | RFlush
  | TWalk | RWalk
  | TRead | RRead
  | TWrite | RWrite
  | TClunk | RClunk
  | TRemove | RRemove
  deriving DecidableEq, Repr

/-- The wire discriminant of each message type (`MsgType as u8`). -/
def msgTypeByte : MsgType → Nat
  | .TlError => 6 | .RlError => 7
  | .TStatFs => 8 | .RStatFs => 9
  | .TlOpen => 12 | .RlOpen => 13
  | .TlCreate => 14 | .RlCreate => 15
  | .TSymlink => 16 | .RSymlink => 17
  | .TMkNod => 18 | .RMkNod => 19
  | .TRename => 20 | .RRename => 21
  | .TReadLink => 22 | .RReadLink => 23
  | .TGetAttr => 24 | .RGetAttr => 25
  | .TSetAttr => 26 | .RSetAttr => 27
  | .TxAttrWalk => 30 | .RxAttrWalk => 31
  | .TxAttrCreate => 32 | .RxAttrCreate => 33
  | .TReadDir => 40 | .RReadDir => 41
  | .TFSync => 50 | .RFSync => 51
  | .TLock => 52 | .RLock => 53
  | .TGetLock => 54 | .RGetLock => 55
  | .TLink => 70 | .RLink => 71
  | .TMkDir => 72 | .RMkDir => 73
  | .TRenameAt => 74 | .RRenameAt => 75
  | .TUnlinkAt => 76 | .RUnlinkAt => 77
  | .TVersion => 100 | .RVersion => 101
  | .TAuth => 102 | .RAuth => 103
  | .TAttach => 104 | .RAttach => 105
  | .TFlush => 108 | .RFlush => 109
  | .TWalk => 110 | .RWalk => 111
  | .TRead => 116 | .RRead => 117
  | .TWrite => 118 | .RWrite => 119
  | .TClunk => 120 | .RClunk => 121
  | .TRemove => 122 | .RRemove => 123

/-- `MsgType::from_u8` generated by enum_from_primitive: only declared
discriminants map back; 112-115 and 124-127 (legacy Open/Create/Stat/WStat)
are not declared and yield `none`. -/
def msgTypeOfByte : Nat → Option MsgType
  | 6 => some .TlError | 7 => some .RlError
  | 8 => some .TStatFs | 9 => some .RStatFs
  | 12 => some .TlOpen | 13 => some .RlOpen
  | 14 => some .TlCreate | 15 => some .RlCreate
  | 16 => some .TSymlink | 17 => some .RSymlink
  | 18 => some .TMkNod | 19 => some .RMkNod
  | 20 => some .TRename | 21 => some .RRename
  | 22 => some .TReadLink | 23 => some .RReadLink
  | 24 => some .TGetAttr | 25 => some .RGetAttr
  | 26 => some .TSetAttr | 27 => some .RSetAttr
  | 30 => some .TxAttrWalk | 31 => some .RxAttrWalk
  | 32 => some .TxAttrCreate | 33 => some .RxAttrCreate
  | 40 => some .TReadDir | 41 => some .RReadDir
  | 50 => some .TFSync | 51 => some .RFSync
  | 52 => some .TLock | 53 => some .RLock
  | 54 => some .TGetLock | 55 => some .RGetLock
  | 70 => some .TLink | 71 => some .RLink
  | 72 => some .TMkDir | 73 => some .RMkDir
  | 74 => some .TRenameAt | 75 => some .RRenameAt
  | 76 => some .TUnlinkAt | 77 => some .RUnlinkAt
  | 100 => some .TVersion | 101 => some .RVersion
  | 102 => some .TAuth | 103 => some .RAuth
  | 104 => some .TAttach | 105 => some .RAttach
  | 108 => some .TFlush | 109 => some .RFlush
  | 110 => some .TWalk | 111 => some .RWalk
  | 116 => some .TRead | 117 => some .RRead
  | 118 => some .TWrite | 119 => some .RWrite
  | 120 => some .TClunk | 121 => some .RClunk
  | 122 => some .TRemove | 123 => some .RRemove
  | _ => none

/-- Message type of a message body, `impl From<&FCall> for MsgType`. -/
def FCall.msgType : FCall → MsgType
  | .RlError .. => .RlError
  | .TStatFs .. => .TStatFs
  | .RStatFs .. => .RStatFs
  | .TlOpen .. => .TlOpen
  | .RlOpen .. => .RlOpen
  | .TlCreate .. => .TlCreate
  | .RlCreate .. => .RlCreate
  | .TSymlink .. => .TSymlink
  | .RSymlink .. => .RSymlink
  | .TMkNod .. => .TMkNod
  | .RMkNod .. => .RMkNod
  | .TRename .. => .TRename
  | .RRename => .RRename
  | .TReadLink .. => .TReadLink
  | .RReadLink .. => .RReadLink
  | .TGetAttr .. => .TGetAttr
  | .RGetAttr .. => .RGetAttr
  | .TSetAttr .. => .TSetAttr
  | .RSetAttr => .RSetAttr
  | .TxAttrWalk .. => .TxAttrWalk
  | .RxAttrWalk .. => .RxAttrWalk
  | .TxAttrCreate .. => .TxAttrCreate
  | .RxAttrCreate => .RxAttrCreate
  | .TReadDir .. => .TReadDir
  | .RReadDir .. => .RReadDir
  | .TFSync .. => .TFSync
  | .RFSync => .RFSync
  | .TLock .. => .TLock
  | .RLock .. => .RLock
  | .TGetLock .. => .TGetLock
  | .RGetLock .. => .RGetLock
  | .TLink .. => .TLink
  | .RLink => .RLink
  | .TMkDir .. => .TMkDir
  | .RMkDir .. => .RMkDir
  | .TRenameAt .. => .TRenameAt
  | .RRenameAt => .RRenameAt
  | .TUnlinkAt .. => .TUnlinkAt
  | .RUnlinkAt => .RUnlinkAt
  | .TAuth .. => .TAuth
  | .RAuth .. => .RAuth
  | .TAttach .. => .TAttach
  | .RAttach .. => .RAttach
  | .TVersion .. => .TVersion
  | .RVersion .. => .RVersion
  | .TFlush .. => .TFlush
  | .RFlush => .RFlush
  | .TWalk .. => .TWalk
  | .RWalk .. => .RWalk
  | .TRead .. => .TRead
  | .RRead .. => .RRead
  | .TWrite .. => .TWrite
  | .RWrite .. => .RWrite
  | .TClunk .. => .TClunk
  | .RClunk => .RClunk
  | .TRemove .. => .TRemove
  | .RRemove => .RRemove

/-- Whether a message type is a reply type, `MsgType::is_r`. -/
def MsgType.isR : MsgType → Bool
  | .RlError | .RStatFs | .RlOpen | .RlCreate | .RSymlink | .RMkNod
  | .RRename | .RReadLink | .RGetAttr | .RSetAttr | .RxAttrWalk
  | .RxAttrCreate | .RReadDir | .RFSync | .RLock | .RGetLock | .RLink
  | .RMkDir | .RRenameAt | .RUnlinkAt | .RVersion | .RAuth | .RAttach
  | .RFlush | .RWalk | .RRead | .RWrite | .RClunk | .RRemove => true
  | _ => false

/-- The new-fid slot of a request, `FCall::newfid`. -/
def FCall.newfid : FCall → Option Nat
  | .TxAttrWalk _ newfid _ => some newfid
  | .TAuth afid _ _ _ => some afid
  | .TAttach fid _ _ _ _ => some fid
  | .TWalk _ newfid _ => some newfid
  | _ => none

/-- Envelope for 9P messages: tag and body, `struct Msg`. -/
structure Msg : Type where
  tag : Nat
  body : FCall
  deriving Repr

/-! ## Wire codec, encoding side (serialize.rs, `impl Encodable`)

Each encoder returns the little-endian byte sequence the Rust encoder
writes. A byte is a `Nat < 256`. -/

/-- Encode an unsigned integer as `k` little-endian bytes. -/
def encLE (k : Nat) (n : Nat) : List Nat :=
  (List.range k).map (fun i => n / 256 ^ i % 256)

/-- Encode a u8, `write_u8`. -/
def enc8 (n : Nat) : List Nat := encLE 1 n

/-- Encode a u16, `write_u16::<LittleEndian>`. -/
def enc16 (n : Nat) : List Nat := encLE 2 n

/-- Encode a u32, `write_u32::<LittleEndian>`. -/
def enc32 (n : Nat) : List Nat := encLE 4 n

/-- Encode a u64, `write_u64::<LittleEndian>`. -/
def enc64 (n : Nat) : List Nat := encLE 8 n

/-- Encode a string: u16 byte length (`self.len() as u16`, truncating)
followed by the raw UTF-8 bytes. -/
def encString (s : List Nat) : List Nat := enc16 s.length ++ s

/-- Encode a `QId`: typ u8 (its flag bits), version u32, path u64. -/
def encQId (q : QId) : List Nat := enc8 q.typ ++ enc32 q.version ++ enc64 q.path

/-- Encode a `StatFs`: typ, bsize u32, then blocks..fsid u64, namelen u32. -/
def encStatFs (s : StatFs) : List Nat :=
  enc32 s.typ ++ enc32 s.bsize ++ enc64 s.blocks ++ enc64 s.bfree ++
  enc64 s.bavail ++ enc64 s.files ++ enc64 s.ffree ++ enc64 s.fsid ++
  enc32 s.namelen

/-- Encode a `Time`: sec u64, nsec u64. -/
def encTime (t : Time) : List Nat := enc64 t.sec ++ enc64 t.nsec

/-- Encode a `Stat`: mode, uid, gid u32, nlink..blocks u64, three times. -/
def encStat (s : Stat) : List Nat :=
  enc32 s.mode ++ enc32 s.uid ++ enc32 s.gid ++ enc64 s.nlink ++
  enc64 s.rdev ++ enc64 s.size ++ enc64 s.blksize ++ enc64 s.blocks ++
  encTime s.atime ++ encTime s.mtime ++ encTime s.ctime

/-- Encode a `SetAttr`: mode, uid, gid u32, size u64, atime, mtime. -/
def encSetAttr (s : SetAttr) : List Nat :=
  enc32 s.mode ++ enc32 s.uid ++ enc32 s.gid ++ enc64 s.size ++
  encTime s.atime ++ encTime s.mtime

/-- Encode a `DirEntry`: qid, offset u64, typ u8, name string. -/
def encDirEntry (e : DirEntry) : List Nat :=
  encQId e.qid ++ enc64 e.offset ++ enc8 e.typ ++ encString e.name

/-- Encode a `DirEntryData`: its `size()` (total byte size of the
entries) as u32, then the entries back-to-back. -/
def encDirEntryData (es : List DirEntry) : List Nat :=
  enc32 (dirEntryDataSize es) ++ (es.map encDirEntry).flatten

/-- Encode a `Data` payload: count u32 then the raw bytes. -/
def encData (d : List Nat) : List Nat := enc32 d.length ++ d

/-- Encode a `Flock`: typ bits u8, flags bits u32, start u64, length u64,
proc_id u32, client_id string. -/
def encFlock (l : Flock) : List Nat :=
  enc8 l.typ ++ enc32 l.flags ++ enc64 l.start ++ enc64 l.length ++
  enc32 l.proc_id ++ encString l.client_id

/-- Encode a `Getlock`: typ bits u8, start u64, length u64, proc_id u32,
client_id string. -/
def encGetlock (l : Getlock) : List Nat :=
  enc8 l.typ ++ enc64 l.start ++ enc64 l.length ++
  enc32 l.proc_id ++ encString l.client_id

/-- Encode a `Vec<T>`: u16 element count (`len() as u16`, truncating)
then the elements. -/
def encVec (enc : α → List Nat) (xs : List α) : List Nat :=
  enc16 xs.length ++ (xs.map enc).flatten

/-- Encode a message body, the per-variant part of
`impl Encodable for Msg`. RGetAttr appends four reserved u64 zero fields
after valid, qid, stat. -/
def encBody : FCall → List Nat
  | .RlError ecode => enc32 ecode
  | .TStatFs fid => enc32 fid
  | .RStatFs statfs => encStatFs statfs
  | .TlOpen fid flags => enc32 fid ++ enc32 flags
  | .RlOpen qid iounit => encQId qid ++ enc32 iounit
  | .TlCreate fid name flags mode gid =>
      enc32 fid ++ encString name ++ enc32 flags ++ enc32 mode ++ enc32 gid
  | .RlCreate qid iounit => encQId qid ++ enc32 iounit
  | .TSymlink fid name symtgt gid =>
      enc32 fid ++ encString name ++ encString symtgt ++ enc32 gid
  | .RSymlink qid => encQId qid
  | .TMkNod dfid name mode major minor gid =>
      enc32 dfid ++ encString name ++ enc32 mode ++ enc32 major ++
      enc32 minor ++ enc32 gid
  | .RMkNod qid => encQId qid
  | .TRename fid dfid name => enc32 fid ++ enc32 dfid ++ encString name
  | .RRename => []
  | .TReadLink fid => enc32 fid
  | .RReadLink target => encString target
  | .TGetAttr fid req_mask => enc32 fid ++ enc64 req_mask
  | .RGetAttr valid qid stat =>
      enc64 valid ++ encQId qid ++ encStat stat ++
      enc64 0 ++ enc64 0 ++ enc64 0 ++ enc64 0
  | .TSetAttr fid valid stat => enc32 fid ++ enc32 valid ++ encSetAttr stat
  | .RSetAttr => []
  | .TxAttrWalk fid newfid name => enc32 fid ++ enc32 newfid ++ encString name
  | .RxAttrWalk size => enc64 size
  | .TxAttrCreate fid name attr_size flags =>
      enc32 fid ++ encString name ++ enc64 attr_size ++ enc32 flags
  | .RxAttrCreate => []
  | .TReadDir fid offset count => enc32 fid ++ enc64 offset ++ enc32 count
  | .RReadDir data => encDirEntryData data
  | .TFSync fid => enc32 fid
  | .RFSync => []
  | .TLock fid flock => enc32 fid ++ encFlock flock
  | .RLock status => enc8 status
  | .TGetLock fid flock => enc32 fid ++ encGetlock flock
  | .RGetLock flock => encGetlock flock
  | .TLink dfid fid name => enc32 dfid ++ enc32 fid ++ encString name
  | .RLink => []
  | .TMkDir dfid name mode gid =>
      enc32 dfid ++ encString name ++ enc32 mode ++ enc32 gid
  | .RMkDir qid => encQId qid
  | .TRenameAt olddirfid oldname newdirfid newname =>
      enc32 olddirfid ++ encString oldname ++ enc32 newdirfid ++ encString newname
  | .RRenameAt => []
  | .TUnlinkAt dirfd name flags => enc32 dirfd ++ encString name ++ enc32 flags
  | .RUnlinkAt => []
  | .TAuth afid uname aname n_uname =>
      enc32 afid ++ encString uname ++ encString aname ++ enc32 n_uname
  | .RAuth aqid => encQId aqid
  | .TAttach fid afid uname aname n_uname =>
      enc32 fid ++ enc32 afid ++ encString uname ++ encString aname ++ enc32 n_uname
  | .RAttach qid => encQId qid
  | .TVersion msize version => enc32 msize ++ encString version
  | .RVersion msize version => enc32 msize ++ encString version
  | .TFlush oldtag => enc16 oldtag
  | .RFlush => []
  | .TWalk fid newfid wnames => enc32 fid ++ enc32 newfid ++ encVec encString wnames
  | .RWalk wqids => encVec encQId wqids
  | .TRead fid offset count => enc32 fid ++ enc64 offset ++ enc32 count
  | .RRead data => encData data
  | .TWrite fid offset data => enc32 fid ++ enc64 offset ++ encData data
  | .RWrite count => enc32 count
  | .TClunk fid => enc32 fid
  | .RClunk => []
  | .TRemove fid => enc32 fid
  | .RRemove => []

/-- Encode a message, `impl Encodable for Msg`: type byte, tag u16, body.
The 4-byte frame-size field is prepended by the frame layer, not here. -/
def encMsg (m : Msg) : List Nat :=
  enc8 (msgTypeByte m.body.msgType) ++ enc16 m.tag ++ encBody m.body

/-! ## Wire codec, decoding side (serialize.rs, `impl Decodable`)

A decoder consumes a prefix of the byte stream and returns the decoded
value and the rest, or `none` on a decode error (premature end of input,
invalid UTF-8, unknown message type). -/

/-- Consume exactly `n` bytes, `read_exact`. -/
def readExact (n : Nat) (bs : List Nat) : Option (List Nat × List Nat) :=
  if n ≤ bs.length then some (bs.take n, bs.drop n) else none

/-- Decode `k` little-endian bytes into an unsigned integer. -/
def decLE (k : Nat) (bs : List Nat) : Option (Nat × List Nat) :=
  if k ≤ bs.length then
    some ((bs.take k).foldr (fun b acc => b + 256 * acc) 0, bs.drop k)
  else none

/-- Decode a u8, `read_u8`. -/
def dec8 (bs : List Nat) : Option (Nat × List Nat) := decLE 1 bs

/-- Decode a u16, `read_u16::<LittleEndian>`. -/
def dec16 (bs : List Nat) : Option (Nat × List Nat) := decLE 2 bs

/-- Decode a u32, `read_u32::<LittleEndian>`. -/
def dec32 (bs : List Nat) : Option (Nat × List Nat) := decLE 4 bs

/-- Decode a u64, `read_u64::<LittleEndian>`. -/
def dec64 (bs : List Nat) : Option (Nat × List Nat) := decLE 8 bs

/-- Whether a byte is a UTF-8 continuation byte (0x80..0xBF). -/
def utf8Cont (b : Nat) : Bool := 0x80 ≤ b && b ≤ 0xBF

/-- Byte-level UTF-8 validity, the check `String::from_utf8` performs:
the standard table of RFC 3629, rejecting overlong forms, surrogates and
code points above U+10FFFF. -/
def validUtf8 : List Nat → Bool
  | [] => true
  | b :: bs =>
    if b ≤ 0x7F then validUtf8 bs
    else if 0xC2 ≤ b && b ≤ 0xDF then
      match bs with
      | b1 :: bs1 => utf8Cont b1 && validUtf8 bs1
      | _ => false
    else if b = 0xE0 then
      match bs with
      | b1 :: b2 :: bs1 => (0xA0 ≤ b1 && b1 ≤ 0xBF) && utf8Cont b2 && validUtf8 bs1
      | _ => false
    else if (0xE1 ≤ b && b ≤ 0xEC) || b = 0xEE || b = 0xEF then
      match bs with
      | b1 :: b2 :: bs1 => utf8Cont b1 && utf8Cont b2 && validUtf8 bs1
      | _ => false
    else if b = 0xED then
      match bs with
      | b1 :: b2 :: bs1 => (0x80 ≤ b1 && b1 ≤ 0x9F) && utf8Cont b2 && validUtf8 bs1
      | _ => false
    else if b = 0xF0 then
      match bs with
      | b1 :: b2 :: b3 :: bs1 =>
          (0x90 ≤ b1 && b1 ≤ 0xBF) && utf8Cont b2 && utf8Cont b3 && validUtf8 bs1
      | _ => false
    else if 0xF1 ≤ b && b ≤ 0xF3 then
      match bs with
      | b1 :: b2 :: b3 :: bs1 =>
          utf8Cont b1 && utf8Cont b2 && utf8Cont b3 && validUtf8 bs1
      | _ => false
    else if b = 0xF4 then
      match bs with
      | b1 :: b2 :: b3 :: bs1 =>
          (0x80 ≤ b1 && b1 ≤ 0x8F) && utf8Cont b2 && utf8Cont b3 && validUtf8 bs1
      | _ => false
    else false

/-- Decode a string: u16 length, that many raw bytes, then the UTF-8
validation of `String::from_utf8` (a protocol error on failure). -/
def decString (bs : List Nat) : Option (List Nat × List Nat) := do
  let (len, bs) ← dec16 bs
  let (raw, bs) ← readExact len bs
  if validUtf8 raw then some (raw, bs) else none

/-- Decode a `QId`; the typ byte goes through QIdType::from_bits_truncate. -/
def decQId (bs : List Nat) : Option (QId × List Nat) := do
  let (t, bs) ← dec8 bs
  let (version, bs) ← dec32 bs
  let (path, bs) ← dec64 bs
  some (⟨qidTypeTruncate t, version, path⟩, bs)

/-- Decode a `StatFs`. -/
def decStatFs (bs : List Nat) : Option (StatFs × List Nat) := do
  let (typ, bs) ← dec32 bs
  let (bsize, bs) ← dec32 bs
  let (blocks, bs) ← dec64 bs
  let (bfree, bs) ← dec64 bs
  let (bavail, bs) ← dec64 bs
  let (files, bs) ← dec64 bs
  let (ffree, bs) ← dec64 bs
  let (fsid, bs) ← dec64 bs
  let (namelen, bs) ← dec32 bs
  some (⟨typ, bsize, blocks, bfree, bavail, files, ffree, fsid, namelen⟩, bs)

/-- Decode a `Time`. -/
def decTime (bs : List Nat) : Option (Time × List Nat) := do
  let (sec, bs) ← dec64 bs
  let (nsec, bs) ← dec64 bs
  some (⟨sec, nsec⟩, bs)

/-- Decode a `Stat`. -/
def decStat (bs : List Nat) : Option (Stat × List Nat) := do
  let (mode, bs) ← dec32 bs
  let (uid, bs) ← dec32 bs
  let (gid, bs) ← dec32 bs
  let (nlink, bs) ← dec64 bs
  let (rdev, bs) ← dec64 bs
  let (size, bs) ← dec64 bs
  let (blksize, bs) ← dec64 bs
  let (blocks, bs) ← dec64 bs
  let (atime, bs) ← decTime bs
  let (mtime, bs) ← decTime bs
  let (ctime, bs) ← decTime bs
  some (⟨mode, uid, gid, nlink, rdev, size, blksize, blocks, atime, mtime, ctime⟩, bs)

/-- Decode a `SetAttr`. -/
def decSetAttr (bs : List Nat) : Option (SetAttr × List Nat) := do
  let (mode, bs) ← dec32 bs
  let (uid, bs) ← dec32 bs
  let (gid, bs) ← dec32 bs
  let (size, bs) ← dec64 bs
  let (atime, bs) ← decTime bs
  let (mtime, bs) ← decTime bs
  some (⟨mode, uid, gid, size, atime, mtime⟩, bs)

/-- Decode a `DirEntry`. -/
def decDirEntry (bs : List Nat) : Option (DirEntry × List Nat) := do
  let (qid, bs) ← decQId bs
  let (offset, bs) ← dec64 bs
  let (typ, bs) ← dec8 bs
  let (name, bs) ← decString bs
  some (⟨qid, offset, typ, name⟩, bs)

/-- Decode `n` successive values with a given element decoder. -/
def decN (dec : List Nat → Option (α × List Nat)) :
    Nat → List Nat → Option (List α × List Nat)
  | 0, bs => some ([], bs)
  | n + 1, bs => do
      let (x, bs) ← dec bs
      let (xs, bs) ← decN dec n bs
      some (x :: xs, bs)

/-- Decode a `DirEntryData`: read a u32 `count`, then decode `count`
entries (the source reads the encoder's byte-size prefix as an entry
count). -/
def decDirEntryData (bs : List Nat) : Option (List DirEntry × List Nat) := do
  let (count, bs) ← dec32 bs
  decN decDirEntry count bs

/-- Decode a `Data` payload: u32 length then that many raw bytes. -/
def decData (bs : List Nat) : Option (List Nat × List Nat) := do
  let (len, bs) ← dec32 bs
  readExact len bs

/-- Decode a `Flock`; typ and flags go through from_bits_truncate. -/
def decFlock (bs : List Nat) : Option (Flock × List Nat) := do
  let (typ, bs) ← dec8 bs
  let (flags, bs) ← dec32 bs
  let (start, bs) ← dec64 bs
  let (length, bs) ← dec64 bs
  let (proc_id, bs) ← dec32 bs
  let (client_id, bs) ← decString bs
  some (⟨lockTypeTruncate typ, lockFlagTruncate flags, start, length, proc_id, client_id⟩, bs)

/-- Decode a `Getlock`; typ goes through from_bits_truncate. -/
def decGetlock (bs : List Nat) : Option (Getlock × List Nat) := do
  let (typ, bs) ← dec8 bs
  let (start, bs) ← dec64 bs
  let (length, bs) ← dec64 bs
  let (proc_id, bs) ← dec32 bs
  let (client_id, bs) ← decString bs
  some (⟨lockTypeTruncate typ, start, length, proc_id, client_id⟩, bs)

/-- Decode a `Vec<T>`: u16 count, then that many elements. -/
def decVec (dec : List Nat → Option (α × List Nat)) (bs : List Nat) :
    Option (List α × List Nat) := do
  let (len, bs) ← dec16 bs
  decN dec len bs

/-- Decode a message body, the big match of `impl Decodable for Msg` on
the result of `MsgType::from_u8`. `TlError` and any undeclared type byte
(legacy 112-115, 124-127 included) are the "Invalid message type"
protocol error. RGetAttr decodes and discards the four reserved trailing
fields (btime as `Time`, gen and data_version as u64). -/
def decBody (msg_type : Option MsgType) (tag : Nat) (bs : List Nat) :
    Option (Msg × List Nat) :=
  match msg_type with
  | some .RlError => do
      let (ecode, bs) ← dec32 bs
      some (⟨tag, .RlError ecode⟩, bs)
  | some .TStatFs => do
      let (fid, bs) ← dec32 bs
      some (⟨tag, .TStatFs fid⟩, bs)
  | some .RStatFs => do
      let (statfs, bs) ← decStatFs bs
      some (⟨tag, .RStatFs statfs⟩, bs)
  | some .TlOpen => do
      let (fid, bs) ← dec32 bs
      let (flags, bs) ← dec32 bs
      some (⟨tag, .TlOpen fid flags⟩, bs)
  | some .RlOpen => do
      let (qid, bs) ← decQId bs
      let (iounit, bs) ← dec32 bs
      some (⟨tag, .RlOpen qid iounit⟩, bs)
  | some .TlCreate => do
      let (fid, bs) ← dec32 bs
      let (name, bs) ← decString bs
      let (flags, bs) ← dec32 bs
      let (mode, bs) ← dec32 bs
      let (gid, bs) ← dec32 bs
      some (⟨tag, .TlCreate fid name flags mode gid⟩, bs)
  | some .RlCreate => do
      let (qid, bs) ← decQId bs
      let (iounit, bs) ← dec32 bs
      some (⟨tag, .RlCreate qid iounit⟩, bs)
  | some .TSymlink => do
      let (fid, bs) ← dec32 bs
      let (name, bs) ← decString bs
      let (symtgt, bs) ← decString bs
      let (gid, bs) ← dec32 bs
      some (⟨tag, .TSymlink fid name symtgt gid⟩, bs)
  | some .RSymlink => do
      let (qid, bs) ← decQId bs
      some (⟨tag, .RSymlink qid⟩, bs)
  | some .TMkNod => do
      let (dfid, bs) ← dec32 bs
      let (name, bs) ← decString bs
      let (mode, bs) ← dec32 bs
      let (major, bs) ← dec32 bs
      let (minor, bs) ← dec32 bs
      let (gid, bs) ← dec32 bs
      some (⟨tag, .TMkNod dfid name mode major minor gid⟩, bs)
  | some .RMkNod => do
      let (qid, bs) ← decQId bs
      some (⟨tag, .RMkNod qid⟩, bs)
  | some .TRename => do
      let (fid, bs) ← dec32 bs
      let (dfid, bs) ← dec32 bs
      let (name, bs) ← decString bs
      some (⟨tag, .TRename fid dfid name⟩, bs)
  | some .RRename => some (⟨tag, .RRename⟩, bs)
  | some .TReadLink => do
      let (fid, bs) ← dec32 bs
      some (⟨tag, .TReadLink fid⟩, bs)
  | some .RReadLink => do
      let (target, bs) ← decString bs
      some (⟨tag, .RReadLink target⟩, bs)
  | some .TGetAttr => do
      let (fid, bs) ← dec32 bs
      let (req_mask, bs) ← dec64 bs
      some (⟨tag, .TGetAttr fid (getAttrMaskTruncate req_mask)⟩, bs)
  | some .RGetAttr => do
      let (valid, bs) ← dec64 bs
      let (qid, bs) ← decQId bs
      let (stat, bs) ← decStat bs
      let (_btime, bs) ← decTime bs
      let (_gen, bs) ← dec64 bs
      let (_ver, bs) ← dec64 bs
      some (⟨tag, .RGetAttr (getAttrMaskTruncate valid) qid stat⟩, bs)
  | some .TSetAttr => do
      let (fid, bs) ← dec32 bs
      let (valid, bs) ← dec32 bs
      let (stat, bs) ← decSetAttr bs
      some (⟨tag, .TSetAttr fid (setAttrMaskTruncate valid) stat⟩, bs)
  | some .RSetAttr => some (⟨tag, .RSetAttr⟩, bs)
  | some .TxAttrWalk => do
      let (fid, bs) ← dec32 bs
      let (newfid, bs) ← dec32 bs
      let (name, bs) ← decString bs
      some (⟨tag, .TxAttrWalk fid newfid name⟩, bs)
  | some .RxAttrWalk => do
      let (size, bs) ← dec64 bs
      some (⟨tag, .RxAttrWalk size⟩, bs)
  | some .TxAttrCreate => do
      let (fid, bs) ← dec32 bs
      let (name, bs) ← decString bs
      let (attr_size, bs) ← dec64 bs
      let (flags, bs) ← dec32 bs
      some (⟨tag, .TxAttrCreate fid name attr_size flags⟩, bs)
  | some .RxAttrCreate => some (⟨tag, .RxAttrCreate⟩, bs)
  | some .TReadDir => do
      let (fid, bs) ← dec32 bs
      let (offset, bs) ← dec64 bs
      let (count, bs) ← dec32 bs
      some (⟨tag, .TReadDir fid offset count⟩, bs)
  | some .RReadDir => do
      let (data, bs) ← decDirEntryData bs
      some (⟨tag, .RReadDir data⟩, bs)
  | some .TFSync => do
      let (fid, bs) ← dec32 bs
      some (⟨tag, .TFSync fid⟩, bs)
  | some .RFSync => some (⟨tag, .RFSync⟩, bs)
  | some .TLock => do
      let (fid, bs) ← dec32 bs
      let (flock, bs) ← decFlock bs
      some (⟨tag, .TLock fid flock⟩, bs)
  | some .RLock => do
      let (status, bs) ← dec8 bs
      some (⟨tag, .RLock (lockStatusTruncate status)⟩, bs)
  | some .TGetLock => do
      let (fid, bs) ← dec32 bs
      let (flock, bs) ← decGetlock bs
      some (⟨tag, .TGetLock fid flock⟩, bs)
  | some .RGetLock => do
      let (flock, bs) ← decGetlock bs
      some (⟨tag, .RGetLock flock⟩, bs)
  | some .TLink => do
      let (dfid, bs) ← dec32 bs
      let (fid, bs) ← dec32 bs
      let (name, bs) ← decString bs
      some (⟨tag, .TLink dfid fid name⟩, bs)
  | some .RLink => some (⟨tag, .RLink⟩, bs)
  | some .TMkDir => do
      let (dfid, bs) ← dec32 bs
      let (name, bs) ← decString bs
      let (mode, bs) ← dec32 bs
      let (gid, bs) ← dec32 bs
      some (⟨tag, .TMkDir dfid name mode gid⟩, bs)
  | some .RMkDir => do
      let (qid, bs) ← decQId bs
      some (⟨tag, .RMkDir qid⟩, bs)
  | some .TRenameAt => do
      let (olddirfid, bs) ← dec32 bs
      let (oldname, bs) ← decString bs
      let (newdirfid, bs) ← dec32 bs
      let (newname, bs) ← decString bs
      some (⟨tag, .TRenameAt olddirfid oldname newdirfid newname⟩, bs)
  | some .RRenameAt => some (⟨tag, .RRenameAt⟩, bs)
  | some .TUnlinkAt => do
      let (dirfd, bs) ← dec32 bs
      let (name, bs) ← decString bs
      let (flags, bs) ← dec32 bs
      some (⟨tag, .TUnlinkAt dirfd name flags⟩, bs)
  | some .RUnlinkAt => some (⟨tag, .RUnlinkAt⟩, bs)
  | some .TAuth => do
      let (afid, bs) ← dec32 bs
      let (uname, bs) ← decString bs
      let (aname, bs) ← decString bs
      let (n_uname, bs) ← dec32 bs
      some (⟨tag, .TAuth afid uname aname n_uname⟩, bs)
  | some .RAuth => do
      let (aqid, bs) ← decQId bs
      some (⟨tag, .RAuth aqid⟩, bs)
  | some .TAttach => do
      let (fid, bs) ← dec32 bs
      let (afid, bs) ← dec32 bs
      let (uname, bs) ← decString bs
      let (aname, bs) ← decString bs
      let (n_uname, bs) ← dec32 bs
      some (⟨tag, .TAttach fid afid uname aname n_uname⟩, bs)
  | some .RAttach => do
      let (qid, bs) ← decQId bs
      some (⟨tag, .RAttach qid⟩, bs)
  | some .TVersion => do
      let (msize, bs) ← dec32 bs
      let (version, bs) ← decString bs
      some (⟨tag, .TVersion msize version⟩, bs)
  | some .RVersion => do
      let (msize, bs) ← dec32 bs
      let (version, bs) ← decString bs
      some (⟨tag, .RVersion msize version⟩, bs)
  | some .TFlush => do
      let (oldtag, bs) ← dec16 bs
      some (⟨tag, .TFlush oldtag⟩, bs)
  | some .RFlush => some (⟨tag, .RFlush⟩, bs)
  | some .TWalk => do
      let (fid, bs) ← dec32 bs
      let (newfid, bs) ← dec32 bs
      let (wnames, bs) ← decVec decString bs
      some (⟨tag, .TWalk fid newfid wnames⟩, bs)
  | some .RWalk => do
      let (wqids, bs) ← decVec decQId bs
      some (⟨tag, .RWalk wqids⟩, bs)
  | some .TRead => do
      let (fid, bs) ← dec32 bs
      let (offset, bs) ← dec64 bs
      let (count, bs) ← dec32 bs
      some (⟨tag, .TRead fid offset count⟩, bs)
  | some .RRead => do
      let (data, bs) ← decData bs
      some (⟨tag, .RRead data⟩, bs)
  | some .TWrite => do
      let (fid, bs) ← dec32 bs
      let (offset, bs) ← dec64 bs
      let (data, bs) ← decData bs
      some (⟨tag, .TWrite fid offset data⟩, bs)
  | some .RWrite => do
      let (count, bs) ← dec32 bs
      some (⟨tag, .RWrite count⟩, bs)
  | some .TClunk => do
      let (fid, bs) ← dec32 bs
      some (⟨tag, .TClunk fid⟩, bs)
  | some .RClunk => some (⟨tag, .RClunk⟩, bs)
  | some .TRemove => do
      let (fid, bs) ← dec32 bs
      some (⟨tag, .TRemove fid⟩, bs)
  | some .RRemove => some (⟨tag, .RRemove⟩, bs)
  | some .TlError => none
  | none => none

/-- Decode a message, `impl Decodable for Msg`: read the type byte and
map it through `MsgType::from_u8`, read the tag, then decode the
type-specific body. -/
def decMsg (bs : List Nat) : Option (Msg × List Nat) := do
  let (t, bs) ← dec8 bs
  let (tag, bs) ← dec16 bs
  decBody (msgTypeOfByte t) tag bs

/-! ## Fid table (srv.rs)

`HashMap<u32, FId<FsFId>>` behind the connection's `RwLock`, modelled as
an association list with overwrite-on-insert and absent-is-OK removal. -/

/-- A registered fid, `struct FId<T>`: raw fid plus backend aux state. -/
structure FIdRec (α : Type) : Type where
  fid : Nat
  aux : α
  deriving DecidableEq, Repr

/-- The per-connection fid table. -/
abbrev FidTable (α : Type) : Type := List (Nat × FIdRec α)

/-- Table lookup, `fids.get(fid)`. -/
def lookupFid (t : FidTable α) (k : Nat) : Option (FIdRec α) :=
  (t.find? (fun p => p.1 == k)).map (fun p => p.2)

/-- Table removal, `fids.remove(&fid)`: absent-is-OK. -/
def removeFid (t : FidTable α) (k : Nat) : FidTable α :=
  t.filter (fun p => p.1 != k)

/-- Table insertion, `fids.insert(fid, v)`: overwrites an existing entry. -/
def insertFid (t : FidTable α) (k : Nat) (v : FIdRec α) : FidTable α :=
  (k, v) :: removeFid t k

/-! ## Filesystem backend (srv.rs, trait Filesystem)

One function per operation hook; every hook returns a successful reply
body or an error. Hooks the backend does not override keep the trait's
default, `Err(error::Error::No(EOPNOTSUPP))`, except `rversion` which
has a real default implementation. `fidDefault` is the `Default`
constructor of the associated aux type `Filesystem::FId`. -/

/-- Result type of a backend hook, `Result<FCall>`. -/
abbrev HookResult : Type := Except Err FCall

/-- The default body of every unimplemented hook. -/
def defaultHook : HookResult := .error (.No EOPNOTSUPP)

/-- The trait's default `rflush`: unimplemented, so `EOPNOTSUPP`. -/
def defaultRflush (_old : Option FCall) : HookResult := .error (.No EOPNOTSUPP)

/-- The trait's default `rversion`: echo the client's msize, echo the
version string when it is exactly "9P2000.L" and answer "unknown"
otherwise. -/
def defaultRversion (msize : Nat) (ver : List Nat) : HookResult :=
  .ok (.RVersion msize (if ver = P92000L then ver else VERSION_UNKNOWN))

/-- The backend capability record, `trait Filesystem` with its
associated aux type `α`. -/
structure Filesystem (α : Type) : Type where
  fidDefault : α
  rstatfs : FIdRec α → HookResult := fun _ => defaultHook
  rlopen : FIdRec α → Nat → HookResult := fun _ _ => defaultHook
  rlcreate : FIdRec α → List Nat → Nat → Nat → Nat → HookResult :=
    fun _ _ _ _ _ => defaultHook
  rsymlink : FIdRec α → List Nat → List Nat → Nat → HookResult :=
    fun _ _ _ _ => defaultHook
  rmknod : FIdRec α → List Nat → Nat → Nat → Nat → Nat → HookResult :=
    fun _ _ _ _ _ _ => defaultHook
  rrename : FIdRec α → FIdRec α → List Nat → HookResult :=
    fun _ _ _ => defaultHook
  rreadlink : FIdRec α → HookResult := fun _ => defaultHook
  rgetattr : FIdRec α → Nat → HookResult := fun _ _ => defaultHook
  rsetattr : FIdRec α → Nat → SetAttr → HookResult := fun _ _ _ => defaultHook
  rxattrwalk : FIdRec α → FIdRec α → List Nat → HookResult :=
    fun _ _ _ => defaultHook
  rxattrcreate : FIdRec α → List Nat → Nat → Nat → HookResult :=
    fun _ _ _ _ => defaultHook
  rreaddir : FIdRec α → Nat → Nat → HookResult := fun _ _ _ => defaultHook
  rfsync : FIdRec α → HookResult := fun _ => defaultHook
  rlock : FIdRec α → Flock → HookResult := fun _ _ => defaultHook
  rgetlock : FIdRec α → Getlock → HookResult := fun _ _ => defaultHook
  rlink : FIdRec α → FIdRec α → List Nat → HookResult :=
    fun _ _ _ => defaultHook
  rmkdir : FIdRec α → List Nat → Nat → Nat → HookResult :=
    fun _ _ _ _ => defaultHook
  rrenameat : FIdRec α → List Nat → FIdRec α → List Nat → HookResult :=
    fun _ _ _ _ => defaultHook
  runlinkat : FIdRec α → List Nat → Nat → HookResult :=
    fun _ _ _ => defaultHook
  rauth : FIdRec α → List Nat → List Nat → Nat → HookResult :=
    fun _ _ _ _ => defaultHook
  rattach : FIdRec α → Option (FIdRec α) → List Nat → List Nat → Nat → HookResult :=
    fun _ _ _ _ _ => defaultHook
  rflush : Option FCall → HookResult := defaultRflush
  rwalk : FIdRec α → FIdRec α → List (List Nat) → HookResult :=
    fun _ _ _ => defaultHook
  rread : FIdRec α → Nat → Nat → HookResult := fun _ _ _ => defaultHook
  rwrite : FIdRec α → Nat → List Nat → HookResult := fun _ _ _ => defaultHook
  rclunk : FIdRec α → HookResult := fun _ => defaultHook
  rremove : FIdRec α → HookResult := fun _ => defaultHook
  rversion : Nat → List Nat → HookResult := defaultRversion

/-! ## Dispatcher (srv.rs, dispatch_once and the worker body) -/

/-- The response computation of `dispatch_once`: resolve the input fids
of the request under the shared read lock (`get_fid`, absent means
`EBADF`), demand the prospective newfid record where the arm needs it
(`get_newfid`, missing means `EPROTO`), and call the backend hook of the
request's type; any non-T-message body is `EOPNOTSUPP`. The `newfid`
argument is the record `dispatch_once` prepared from
`msg.body.newfid()`. -/
def dispatchResponse (fs : Filesystem α) (fids : FidTable α)
    (newfid : Option (FIdRec α)) : FCall → HookResult
  | .TStatFs fid =>
      match lookupFid fids fid with
      | some f => fs.rstatfs f
      | none => .error (.No EBADF)
  | .TlOpen fid flags =>
      match lookupFid fids fid with
      | some f => fs.rlopen f flags
      | none => .error (.No EBADF)
  | .TlCreate fid name flags mode gid =>
      match lookupFid fids fid with
      | some f => fs.rlcreate f name flags mode gid
      | none => .error (.No EBADF)
  | .TSymlink fid name symtgt gid =>
      match lookupFid fids fid with
      | some f => fs.rsymlink f name symtgt gid
      | none => .error (.No EBADF)
  | .TMkNod dfid name mode major minor gid =>
      match lookupFid fids dfid with
      | some f => fs.rmknod f name mode major minor gid
      | none => .error (.No EBADF)
  | .TRename fid dfid name =>
      match lookupFid fids fid with
      | some f =>
          match lookupFid fids dfid with
          | some d => fs.rrename f d name
          | none => .error (.No EBADF)
      | none => .error (.No EBADF)
  | .TReadLink fid =>
      match lookupFid fids fid with
      | some f => fs.rreadlink f
      | none => .error (.No EBADF)
  | .TGetAttr fid req_mask =>
      match lookupFid fids fid with
      | some f => fs.rgetattr f req_mask
      | none => .error (.No EBADF)
  | .TSetAttr fid valid stat =>
      match lookupFid fids fid with
      | some f => fs.rsetattr f valid stat
      | none => .error (.No EBADF)
  | .TxAttrWalk fid _ name =>
      match lookupFid fids fid with
      | some f =>
          match newfid with
          | some nf => fs.rxattrwalk f nf name
          | none => .error (.No EPROTO)
      | none => .error (.No EBADF)
  | .TxAttrCreate fid name attr_size flags =>
      match lookupFid fids fid with
      | some f => fs.rxattrcreate f name attr_size flags
      | none => .error (.No EBADF)
  | .TReadDir fid offset count =>
      match lookupFid fids fid with
      | some f => fs.rreaddir f offset count
      | none => .error (.No EBADF)
  | .TFSync fid =>
      match lookupFid fids fid with
      | some f => fs.rfsync f
      | none => .error (.No EBADF)
  | .TLock fid flock =>
      match lookupFid fids fid with
      | some f => fs.rlock f flock
      | none => .error (.No EBADF)
  | .TGetLock fid flock =>
      match lookupFid fids fid with
      | some f => fs.rgetlock f flock
      | none => .error (.No EBADF)
  | .TLink dfid fid name =>
      match lookupFid fids dfid with
      | some d =>
          match lookupFid fids fid with
          | some f => fs.rlink d f name
          | none => .error (.No EBADF)
      | none => .error (.No EBADF)
  | .TMkDir dfid name mode gid =>
      match lookupFid fids dfid with
      | some f => fs.rmkdir f name mode gid
      | none => .error (.No EBADF)
  | .TRenameAt olddirfid oldname newdirfid newname =>
      match lookupFid fids olddirfid with
      | some o =>
          match lookupFid fids newdirfid with
          | some n => fs.rrenameat o oldname n newname
          | none => .error (.No EBADF)
      | none => .error (.No EBADF)
  | .TUnlinkAt dirfd name flags =>
      match lookupFid fids dirfd with
      | some f => fs.runlinkat f name flags
      | none => .error (.No EBADF)
  | .TAuth _ uname aname n_uname =>
      match newfid with
      | some nf => fs.rauth nf uname aname n_uname
      | none => .error (.No EPROTO)
  | .TAttach _ _ uname aname n_uname =>
      match newfid with
      | some nf => fs.rattach nf none uname aname n_uname
      | none => .error (.No EPROTO)
  | .TVersion msize version => fs.rversion msize version
  | .TFlush _ => fs.rflush none
  | .TWalk fid _ wnames =>
      match lookupFid fids fid with
      | some f =>
          match newfid with
          | some nf => fs.rwalk f nf wnames
          | none => .error (.No EPROTO)
      | none => .error (.No EBADF)
  | .TRead fid offset count =>
      match lookupFid fids fid with
      | some f => fs.rread f offset count
      | none => .error (.No EBADF)
  | .TWrite fid offset data =>
      match lookupFid fids fid with
      | some f => fs.rwrite f offset data
      | none => .error (.No EBADF)
  | .TClunk fid =>
      match lookupFid fids fid with
      | some f => fs.rclunk f
      | none => .error (.No EBADF)
  | .TRemove fid =>
      match lookupFid fids fid with
      | some f => fs.rremove f
      | none => .error (.No EBADF)
  | _ => .error (.No EOPNOTSUPP)

/-- The post-success block "Drop the fid which the TClunk contains":
only a `TClunk` body removes its fid from the table. -/
def clunkTable (body : FCall) (fids : FidTable α) : FidTable α :=
  match body with
  | .TClunk fid => removeFid fids fid
  | _ => fids

/-- The post-success block inserting the prepared newfid record, when
the request had a newfid slot. -/
def registerNewfid (newfid : Option (FIdRec α)) (fids : FidTable α) : FidTable α :=
  match newfid with
  | some nf => insertFid fids nf.fid nf
  | none => fids

/-- One dispatch, `dispatch_once`: prepare the newfid record from
`msg.body.newfid()` with a default-constructed aux, compute the response,
and, only when the whole computation succeeded (every `?` early-returns
the error with the table untouched), drop the fid a `TClunk` names and
insert the prepared newfid record. Returns the response (or error)
together with the table after the dispatch. -/
def dispatchOnce (fs : Filesystem α) (msg : Msg) (fids : FidTable α) :
    HookResult × FidTable α :=
  match dispatchResponse fs fids (msg.body.newfid.map (fun f => ⟨f, fs.fidDefault⟩)) msg.body with
  | .error e => (.error e, fids)
  | .ok response =>
      (.ok response,
        registerNewfid (msg.body.newfid.map (fun f => ⟨f, fs.fidDefault⟩))
          (clunkTable msg.body fids))

/-- The worker body spawned by `dispatch` for one decoded message: run
`dispatch_once`, turn an error into `Rlerror{ecode: e.errno() as u32}`,
and emit the reply with the request's tag provided its type is an
R-message (other bodies are not written). Returns the emitted message,
if any, and the table after the dispatch. -/
def workerReply (fs : Filesystem α) (msg : Msg) (fids : FidTable α) :
    Option Msg × FidTable α :=
  let (result, fids1) := dispatchOnce fs msg fids
  let response_fcall :=
    match result with
    | .ok fcall => fcall
    | .error e => .RlError (e.errno % 4294967296)
  if response_fcall.msgType.isR then
    (some ⟨msg.tag, response_fcall⟩, fids1)
  else
    (none, fids1)

/-! ## Concrete fixtures used by counterexamples and witnesses -/

/-- A backend with unit aux state that overrides nothing: every hook is
the trait default. -/
def fs0 : Filesystem Unit := { fidDefault := () }

/-- A registered fid 0 with unit aux. -/
def fid0 : FIdRec Unit := ⟨0, ()⟩

/-- The all-zero qid. -/
def qid0 : QId := ⟨0, 0, 0⟩

/-- A backend whose `rwalk` succeeds with a single qid, regardless of how
many components were requested. -/
def walkFs : Filesystem Unit :=
  { fidDefault := (), rwalk := fun _ _ _ => .ok (.RWalk [qid0]) }

/-- A backend whose `rclunk` fails with errno 5 (EIO) and whose
`rremove` succeeds. -/
def clunkErrFs : Filesystem Unit :=
  { fidDefault := ()
    rclunk := fun _ => .error (.No 5)
    rremove := fun _ => .ok .RRemove }

/-- An `RReadDir` reply with a single empty-named entry; its encoded
`DirEntryData` payload is 24 bytes long, so the encoder's prefix is 24. -/
def msgRReadDirOne : Msg := ⟨0, .RReadDir [⟨qid0, 0, 0, []⟩]⟩

/-- The property that no backend hook of `fs` ever answers with errno
EPROTO, one conjunct per hook of the trait. -/
def Filesystem.NoEproto (fs : Filesystem α) : Prop :=
  (∀ f, fs.rstatfs f ≠ .error (.No EPROTO)) ∧
  (∀ f a, fs.rlopen f a ≠ .error (.No EPROTO)) ∧
  (∀ f a b c d, fs.rlcreate f a b c d ≠ .error (.No EPROTO)) ∧
  (∀ f a b c, fs.rsymlink f a b c ≠ .error (.No EPROTO)) ∧
  (∀ f a b c d e, fs.rmknod f a b c d e ≠ .error (.No EPROTO)) ∧
  (∀ f g a, fs.rrename f g a ≠ .error (.No EPROTO)) ∧
  (∀ f, fs.rreadlink f ≠ .error (.No EPROTO)) ∧
  (∀ f a, fs.rgetattr f a ≠ .error (.No EPROTO)) ∧
  (∀ f a b, fs.rsetattr f a b ≠ .error (.No EPROTO)) ∧
  (∀ f g a, fs.rxattrwalk f g a ≠ .error (.No EPROTO)) ∧
  (∀ f a b c, fs.rxattrcreate f a b c ≠ .error (.No EPROTO)) ∧
  (∀ f a b, fs.rreaddir f a b ≠ .error (.No EPROTO)) ∧
  (∀ f, fs.rfsync f ≠ .error (.No EPROTO)) ∧
  (∀ f a, fs.rlock f a ≠ .error (.No EPROTO)) ∧
  (∀ f a, fs.rgetlock f a ≠ .error (.No EPROTO)) ∧
  (∀ f g a, fs.rlink f g a ≠ .error (.No EPROTO)) ∧
  (∀ f a b c, fs.rmkdir f a b c ≠ .error (.No EPROTO)) ∧
  (∀ f a g b, fs.rrenameat f a g b ≠ .error (.No EPROTO)) ∧
  (∀ f a b, fs.runlinkat f a b ≠ .error (.No EPROTO)) ∧
  (∀ f a b c, fs.rauth f a b c ≠ .error (.No EPROTO)) ∧
  (∀ f g a b c, fs.rattach f g a b c ≠ .error (.No EPROTO)) ∧
  (∀ a, fs.rflush a ≠ .error (.No EPROTO)) ∧
  (∀ f g a, fs.rwalk f g a ≠ .error (.No EPROTO)) ∧
  (∀ f a b, fs.rread f a b ≠ .error (.No EPROTO)) ∧
  (∀ f a b, fs.rwrite f a b ≠ .error (.No EPROTO)) ∧
  (∀ f, fs.rclunk f ≠ .error (.No EPROTO)) ∧
  (∀ f, fs.rremove f ≠ .error (.No EPROTO)) ∧
  (∀ a b, fs.rversion a b ≠ .error (.No EPROTO))

/-! ## Helper lemmas -/

/-- The response half of `dispatch_once` is the arm computation alone:
the post-success table mutations do not change the returned value. -/
theorem dispatchOnce_fst (fs : Filesystem α) (msg : Msg) (fids : FidTable α) :
    (dispatchOnce fs msg fids).1 =
      dispatchResponse fs fids (msg.body.newfid.map (fun f => ⟨f, fs.fidDefault⟩)) msg.body := by
  unfold dispatchOnce
  cases hr : dispatchResponse fs fids (msg.body.newfid.map (fun f => ⟨f, fs.fidDefault⟩)) msg.body <;>
    simp [hr]

/-- Whenever the response computation fails, `dispatch_once` returns that
error with the fid table untouched (`?` early-returns before the
mutation blocks). -/
theorem dispatchOnce_error (fs : Filesystem α) (msg : Msg) (fids : FidTable α)
    (e : Err) (fids2 : FidTable α)
    (h : dispatchOnce fs msg fids = (.error e, fids2)) : fids2 = fids := by
  unfold dispatchOnce at h
  cases hr : dispatchResponse fs fids (msg.body.newfid.map (fun f => ⟨f, fs.fidDefault⟩)) msg.body <;>
    rw [hr] at h <;> simp_all

/-- Whenever the response computation succeeds, the table after
`dispatch_once` is the post-success table: remove a clunked fid, then
insert the newfid record if the request had a newfid slot. -/
theorem dispatchOnce_ok (fs : Filesystem α) (msg : Msg) (fids : FidTable α)
    (resp : FCall) (fids2 : FidTable α)
    (h : dispatchOnce fs msg fids = (.ok resp, fids2)) :
    fids2 = registerNewfid (msg.body.newfid.map (fun f => ⟨f, fs.fidDefault⟩))
      (clunkTable msg.body fids) := by
  unfold dispatchOnce at h
  cases hr : dispatchResponse fs fids (msg.body.newfid.map (fun f => ⟨f, fs.fidDefault⟩)) msg.body <;>
    rw [hr] at h <;> simp_all

/-- The response characterization restated over an explicit tag and
body, so the per-arm equations of `dispatchResponse` apply directly. -/
theorem dispatchOnce_fst_mk (fs : Filesystem α) (tag : Nat) (body : FCall)
    (fids : FidTable α) :
    (dispatchOnce fs ⟨tag, body⟩ fids).1 =
      dispatchResponse fs fids (body.newfid.map (fun f => ⟨f, fs.fidDefault⟩)) body :=
  dispatchOnce_fst fs ⟨tag, body⟩ fids

/-- The default backend `fs0` never answers EPROTO from any hook. -/
theorem fs0_noEproto : fs0.NoEproto := by
  refine ⟨?_, ?_, ?_, ?_, ?_, ?_, ?_, ?_, ?_, ?_, ?_, ?_, ?_, ?_, ?_, ?_, ?_,
    ?_, ?_, ?_, ?_, ?_, ?_, ?_, ?_, ?_, ?_, ?_⟩ <;>
    intros <;>
    simp [fs0, defaultHook, defaultRflush, defaultRversion, EPROTO, EOPNOTSUPP]

/-- Reduction of the decoder's final match at an undeclared type byte. -/
theorem decBody_none (tag : Nat) (bs : List Nat) : decBody none tag bs = none := rfl

/-- Reduction of the decoder's final match at the reserved `TlError`. -/
theorem decBody_tlerror (tag : Nat) (bs : List Nat) :
    decBody (some .TlError) tag bs = none := rfl

/-! ## The claims -/

/-- C1: the spec claims `decode(encode(m)) = m` for every well-formed
message. The code violates this for `RReadDir`: the encoder writes the
`DirEntryData` prefix as the total byte size of the entries (`size()`),
while the decoder reads that prefix back as the number of entries to
decode. For the one-entry reply `msgRReadDirOne` the encoder emits the
prefix 24 (the entry's byte size) followed by the 24 entry bytes; the
decoder then tries to decode 24 entries, runs out of input after the
first, and fails, so the round trip does not hold. -/
theorem c1_rreaddir_roundtrip_fails : decMsg (encMsg msgRReadDirOne) = none := rfl

/-- C2 counterexample: a partial walk does register the newfid. With a
backend whose `rwalk` returns one qid for a two-component `wnames`, the
dispatch succeeds and newfid 1 is inserted into the table, contradicting
the claim that a partially satisfied nonempty walk must not register the
newfid. -/
theorem c2_counterexample :
    (dispatchOnce walkFs ⟨2, .TWalk 0 1 [[97], [98]]⟩ [(0, fid0)]).1 =
      .ok (.RWalk [qid0]) ∧
    lookupFid (dispatchOnce walkFs ⟨2, .TWalk 0 1 [[97], [98]]⟩ [(0, fid0)]).2 1 =
      some ⟨1, ()⟩ :=
  ⟨rfl, rfl⟩

/-- C2 amended: for a dispatched `Twalk` whose source fid resolves, the
newfid is inserted into the fid table whenever the backend call
succeeds, regardless of how many wqids it returned (partial walks
included); when the backend fails, the table is unchanged and the newfid
is not registered. -/
theorem c2_twalk_newfid_iff_backend_ok (fs : Filesystem α) (fids : FidTable α)
    (tag fid nf : Nat) (wnames : List (List Nat)) (f : FIdRec α)
    (h : lookupFid fids fid = some f) :
    dispatchOnce fs ⟨tag, .TWalk fid nf wnames⟩ fids =
      match fs.rwalk f ⟨nf, fs.fidDefault⟩ wnames with
      | .ok resp => (.ok resp, insertFid fids nf ⟨nf, fs.fidDefault⟩)
      | .error e => (.error e, fids) := by
  unfold dispatchOnce dispatchResponse
  simp only [FCall.newfid, Option.map, h]
  cases fs.rwalk f ⟨nf, fs.fidDefault⟩ wnames <;> rfl

/-- C2 witness: the amended walk characterization applied to the
concrete partial walk of the counterexample backend. -/
theorem c2_witness :
    dispatchOnce walkFs ⟨2, .TWalk 0 1 [[97], [98]]⟩ [(0, fid0)] =
      (.ok (.RWalk [qid0]), [(1, ⟨1, ()⟩), (0, fid0)]) := by
  have h := c2_twalk_newfid_iff_backend_ok walkFs [(0, fid0)] 2 0 1 [[97], [98]] fid0 rfl
  simpa using h

/-- C3 counterexample: dispatching `Tversion` does not empty the fid
table. A fid registered before a `Tversion` dispatch is still present
afterwards, contradicting the claim that every prior fid is absent. -/
theorem c3_counterexample :
    lookupFid (dispatchOnce fs0 ⟨NOTAG, .TVersion 8192 P92000L⟩ [(0, fid0)]).2 0 =
      some fid0 := rfl

/-- C3 amended: dispatching a `Tversion` leaves the fid table exactly as
it was; the `TVersion` arm only calls the backend's `rversion` and the
dispatcher neither removes nor inserts any fid for it. -/
theorem c3_tversion_table_unchanged (fs : Filesystem α) (fids : FidTable α)
    (tag msize : Nat) (version : List Nat) :
    (dispatchOnce fs ⟨tag, .TVersion msize version⟩ fids).2 = fids := by
  unfold dispatchOnce dispatchResponse
  simp only [FCall.newfid, Option.map]
  cases fs.rversion msize version <;> rfl

/-- C4 counterexample: with a backend whose `rclunk` fails with errno 5
and whose `rremove` succeeds, (i) a `Tclunk` on registered fid 0 returns
the error and fid 0 is still in the table, and (ii) a `Tremove` on
registered fid 0 succeeds and fid 0 is also still in the table. Both
contradict the claim that Tclunk and Tremove always remove the fid. -/
theorem c4_counterexample :
    (dispatchOnce clunkErrFs ⟨4, .TClunk 0⟩ [(0, fid0)]).1 = .error (.No 5) ∧
    lookupFid (dispatchOnce clunkErrFs ⟨4, .TClunk 0⟩ [(0, fid0)]).2 0 = some fid0 ∧
    (dispatchOnce clunkErrFs ⟨4, .TRemove 0⟩ [(0, fid0)]).1 = .ok .RRemove ∧
    lookupFid (dispatchOnce clunkErrFs ⟨4, .TRemove 0⟩ [(0, fid0)]).2 0 = some fid0 :=
  ⟨rfl, rfl, rfl, rfl⟩

/-- C4 amended: a `Tclunk` on a registered fid removes the fid exactly
when the backend's `rclunk` succeeds; when it fails, the error
early-returns before the removal block and the fid stays. A `Tremove`
never touches the fid table at all (only the `TClunk` arm removes). -/
theorem c4_clunk_remove_semantics (fs : Filesystem α) (fids : FidTable α)
    (tag fid : Nat) (f : FIdRec α) (h : lookupFid fids fid = some f) :
    (dispatchOnce fs ⟨tag, .TClunk fid⟩ fids =
      match fs.rclunk f with
      | .ok resp => (.ok resp, removeFid fids fid)
      | .error e => (.error e, fids)) ∧
    dispatchOnce fs ⟨tag, .TRemove fid⟩ fids = (fs.rremove f, fids) := by
  constructor
  · unfold dispatchOnce dispatchResponse
    simp only [FCall.newfid, Option.map, h]
    cases fs.rclunk f <;> rfl
  · unfold dispatchOnce dispatchResponse
    simp only [FCall.newfid, Option.map, h]
    cases fs.rremove f <;> rfl

/-- C4 witness: the clunk/remove characterization applied to the
concrete backend of the counterexample. -/
theorem c4_witness :
    dispatchOnce clunkErrFs ⟨4, .TClunk 0⟩ [(0, fid0)] = (.error (.No 5), [(0, fid0)]) ∧
    dispatchOnce clunkErrFs ⟨4, .TRemove 0⟩ [(0, fid0)] = (.ok .RRemove, [(0, fid0)]) := by
  have h := c4_clunk_remove_semantics clunkErrFs [(0, fid0)] 4 0 fid0 rfl
  exact ⟨by simpa using h.1, by simpa using h.2⟩

/-- C5: whenever the dispatch of a request errors with errno `ec`, the
fid table is left exactly as it was, and the worker turns the error into
an `Rlerror{ecode = ec}` reply carrying the request's own tag (every
real errno is below `2^32`, so the `as u32` cast is the identity). -/
theorem c5_error_reply_same_tag (fs : Filesystem α) (msg : Msg) (fids fids2 : FidTable α)
    (ec : Nat) (hec : ec < 4294967296)
    (h : dispatchOnce fs msg fids = (.error (.No ec), fids2)) :
    fids2 = fids ∧
    workerReply fs msg fids = (some ⟨msg.tag, .RlError ec⟩, fids) := by
  have htab := dispatchOnce_error fs msg fids (.No ec) fids2 h
  subst htab
  refine ⟨rfl, ?_⟩
  unfold workerReply
  rw [h]
  simp [Err.errno, FCall.msgType, MsgType.isR, Nat.mod_eq_of_lt hec]

/-- C5 witness: the error-reply theorem applied to a concrete failing
dispatch (a `Tstatfs` on an empty table errors with EBADF = 9). -/
theorem c5_witness :
    workerReply fs0 ⟨3, .TStatFs 0⟩ [] = (some ⟨3, .RlError 9⟩, []) :=
  (c5_error_reply_same_tag fs0 ⟨3, .TStatFs 0⟩ [] [] 9 (by decide) rfl).2

/-- C7: the default `rversion` implementation answers with exactly the
client's msize and echoes the string "9P2000.L" if and only if the
client offered exactly that string, answering the literal "unknown"
otherwise. The default imposes no server-side cap on msize, so
`min(client_msize, server_msize)` is degenerate: with the server's
msize at the u32 maximum, `min msize 0xFFFFFFFF = msize` for every u32
msize, and 8192 in particular is echoed as 8192. -/
theorem c7_default_rversion (msize : Nat) (ver : List Nat)
    (h : msize < 4294967296) :
    defaultRversion msize ver =
      .ok (.RVersion msize (if ver = P92000L then P92000L else VERSION_UNKNOWN)) ∧
    min msize 4294967295 = msize ∧
    ((if ver = P92000L then P92000L else VERSION_UNKNOWN) = P92000L ↔ ver = P92000L) := by
  refine ⟨?_, Nat.min_eq_left (by omega), ?_⟩
  · unfold defaultRversion
    by_cases hv : ver = P92000L <;> simp [hv]
  · by_cases hv : ver = P92000L <;> simp [hv, VERSION_UNKNOWN, P92000L]

/-- C7 witness: the negotiation theorem at the concrete example
`Tversion{msize = 8192, version = "9P2000.L"}`. -/
theorem c7_witness :
    defaultRversion 8192 P92000L =
      .ok (.RVersion 8192 (if P92000L = P92000L then P92000L else VERSION_UNKNOWN)) ∧
    min 8192 4294967295 = 8192 ∧
    ((if P92000L = P92000L then P92000L else VERSION_UNKNOWN) = P92000L ↔ P92000L = P92000L) :=
  c7_default_rversion 8192 P92000L (by decide)

/-- C8: decoding fails, whatever tag and body bytes follow, whenever the
type byte is not a declared `MsgType` discriminant or is the reserved
`TlError = 6`: the decoder's final match sends `Some(TlError)` and
`None` to the "Invalid message type" protocol error. The second
conjunct checks that the legacy 9P2000 bytes 112-115 (Topen/Tcreate)
and 124-127 (Tstat/Twstat) all fall under that hypothesis, 6 included. -/
theorem c8_invalid_type_bytes :
    (∀ t rest, (msgTypeOfByte t = none ∨ t = 6) → decMsg (t :: rest) = none) ∧
    (∀ t, t ∈ ([6, 112, 113, 114, 115, 124, 125, 126, 127] : List Nat) →
      msgTypeOfByte t = none ∨ t = 6) := by
  constructor
  · intro t rest h
    have h8 : dec8 (t :: rest) = some (t, rest) := by
      simp [dec8, decLE]
    have hmt : msgTypeOfByte t = none ∨ msgTypeOfByte t = some .TlError := by
      rcases h with h | h
      · exact Or.inl h
      · exact Or.inr (by subst h; rfl)
    unfold decMsg
    rw [h8]
    cases hdec : dec16 rest with
    | none => simp [hdec]
    | some p =>
        rcases hmt with h2 | h2 <;>
          simp [hdec, h2, decBody_none, decBody_tlerror]
  · decide

/-- C8 witness: a concrete rejected frame, type byte 112 (legacy Topen)
followed by a plausible tag and body. -/
theorem c8_witness : decMsg (112 :: [0, 0, 7, 7, 7, 7]) = none :=
  c8_invalid_type_bytes.1 112 [0, 0, 7, 7, 7, 7] (Or.inl rfl)

/-- C9 counterexample: with the library's default backend (which keeps
the trait's default `rflush`), the worker's reply to
`Tflush{oldtag = 5}` with tag 3 is `Rlerror{ecode = EOPNOTSUPP}`, not an
`Rflush`: the default `rflush` is unimplemented and fails with
EOPNOTSUPP = 95 like every other unimplemented hook. -/
theorem c9_counterexample :
    workerReply fs0 ⟨3, .TFlush 5⟩ [] = (some ⟨3, .RlError 95⟩, []) ∧
    (workerReply fs0 ⟨3, .TFlush 5⟩ []).1 ≠ some ⟨3, .RFlush⟩ := by
  refine ⟨rfl, ?_⟩
  rw [show (workerReply fs0 ⟨3, .TFlush 5⟩ []).1 = some ⟨3, .RlError 95⟩ from rfl]
  simp

/-- C9 amended: for every backend that keeps the trait's default
`rflush`, dispatching a `Tflush` fails with EOPNOTSUPP and the reply to
the request is `Rlerror{ecode = EOPNOTSUPP}` carrying the request's tag
(the fid table is untouched). An `Rflush` reply is produced only when
the backend overrides `rflush` to return one. -/
theorem c9_default_rflush_replies_rlerror (fs : Filesystem α)
    (hflush : fs.rflush = defaultRflush) (tag oldtag : Nat) (fids : FidTable α) :
    dispatchOnce fs ⟨tag, .TFlush oldtag⟩ fids = (.error (.No EOPNOTSUPP), fids) ∧
    workerReply fs ⟨tag, .TFlush oldtag⟩ fids =
      (some ⟨tag, .RlError EOPNOTSUPP⟩, fids) := by
  have hd : dispatchOnce fs ⟨tag, .TFlush oldtag⟩ fids = (.error (.No EOPNOTSUPP), fids) := by
    unfold dispatchOnce dispatchResponse
    simp [FCall.newfid, hflush, defaultRflush]
  refine ⟨hd, ?_⟩
  unfold workerReply
  rw [hd]
  simp [Err.errno, FCall.msgType, MsgType.isR, EOPNOTSUPP]

/-- C9 witness: the amended flush behaviour at the concrete default
backend and request of the counterexample. -/
theorem c9_witness :
    dispatchOnce fs0 ⟨3, .TFlush 5⟩ [] = (.error (.No EOPNOTSUPP), []) ∧
    workerReply fs0 ⟨3, .TFlush 5⟩ [] = (some ⟨3, .RlError EOPNOTSUPP⟩, []) :=
  c9_default_rflush_replies_rlerror fs0 rfl 3 5 []

/-- C10: `FCall::newfid` returns `Some` for exactly the four request
shapes whose dispatch arm calls `get_newfid` (TxattrWalk, Tauth, Tattach
and Twalk, returning the newfid, afid, fid and newfid slots
respectively), so the `EPROTO` branch of `get_newfid` is unreachable:
for any backend whose hooks never themselves answer EPROTO, no dispatch
returns the EPROTO error. -/
theorem c10_no_eproto (fs : Filesystem α) (hfs : fs.NoEproto) :
    (∀ fid nf name, FCall.newfid (.TxAttrWalk fid nf name) = some nf) ∧
    (∀ afid u a n, FCall.newfid (.TAuth afid u a n) = some afid) ∧
    (∀ fid afid u a n, FCall.newfid (.TAttach fid afid u a n) = some fid) ∧
    (∀ fid nf w, FCall.newfid (.TWalk fid nf w) = some nf) ∧
    (∀ msg fids, (dispatchOnce fs msg fids).1 ≠ .error (.No EPROTO)) := by
  obtain ⟨h1, h2, h3, h4, h5, h6, h7, h8, h9, h10, h11, h12, h13, h14, h15,
    h16, h17, h18, h19, h20, h21, h22, h23, h24, h25, h26, h27, h28⟩ := hfs
  refine ⟨fun _ _ _ => rfl, fun _ _ _ _ => rfl, fun _ _ _ _ _ => rfl,
    fun _ _ _ => rfl, ?_⟩
  intro msg fids
  rw [dispatchOnce_fst]
  rcases msg with ⟨tag, body⟩
  cases body <;>
    simp only [dispatchResponse, FCall.newfid, Option.map] <;>
    (try (repeat' split)) <;>
    first
      | apply h1 | apply h2 | apply h3 | apply h4 | apply h5 | apply h6
      | apply h7 | apply h8 | apply h9 | apply h10 | apply h11 | apply h12
      | apply h13 | apply h14 | apply h15 | apply h16 | apply h17 | apply h18
      | apply h19 | apply h20 | apply h21 | apply h22 | apply h23 | apply h24
      | apply h25 | apply h26 | apply h27 | apply h28
      | simp [EBADF, EPROTO, EOPNOTSUPP]

/-- C10 witness: the no-EPROTO theorem at the default backend and a
concrete `Twalk` on the empty table. -/
theorem c10_witness :
    (dispatchOnce fs0 ⟨0, .TWalk 0 1 []⟩ []).1 ≠ .error (.No EPROTO) :=
  (c10_no_eproto fs0 fs0_noEproto).2.2.2.2 ⟨0, .TWalk 0 1 []⟩ []

/-- C6: one conjunct per request type of the message table. The
dispatch response of each request type is exactly the corresponding
backend hook applied to the request's declared input fids as resolved
through the fid table (in the arm's resolution order), together with the
remaining arguments and, where the arm has one, the prepared newfid
record; when any named input fid is absent the response is the `EBADF`
error and, the equation holding for every backend `fs` uniformly, no
hook is consulted. `Tversion` and `Tflush` name no fids and `Tattach`
and `Tauth` resolve none (the attach arm passes `None` for afid). -/
theorem c6_dispatch_table (fs : Filesystem α) (fids : FidTable α) :
    (∀ tag fid, (dispatchOnce fs ⟨tag, .TStatFs fid⟩ fids).1 =
      match lookupFid fids fid with
      | some f => fs.rstatfs f
      | none => .error (.No EBADF)) ∧
    (∀ tag fid flags, (dispatchOnce fs ⟨tag, .TlOpen fid flags⟩ fids).1 =
      match lookupFid fids fid with
      | some f => fs.rlopen f flags
      | none => .error (.No EBADF)) ∧
    (∀ tag fid name flags mode gid,
      (dispatchOnce fs ⟨tag, .TlCreate fid name flags mode gid⟩ fids).1 =
      match lookupFid fids fid with
      | some f => fs.rlcreate f name flags mode gid
      | none => .error (.No EBADF)) ∧
    (∀ tag fid name symtgt gid,
      (dispatchOnce fs ⟨tag, .TSymlink fid name symtgt gid⟩ fids).1 =
      match lookupFid fids fid with
      | some f => fs.rsymlink f name symtgt gid
      | none => .error (.No EBADF)) ∧
    (∀ tag dfid name mode major minor gid,
      (dispatchOnce fs ⟨tag, .TMkNod dfid name mode major minor gid⟩ fids).1 =
      match lookupFid fids dfid with
      | some f => fs.rmknod f name mode major minor gid
      | none => .error (.No EBADF)) ∧
    (∀ tag fid dfid name, (dispatchOnce fs ⟨tag, .TRename fid dfid name⟩ fids).1 =
      match lookupFid fids fid with
      | some f =>
          match lookupFid fids dfid with
          | some d => fs.rrename f d name
          | none => .error (.No EBADF)
      | none => .error (.No EBADF)) ∧
    (∀ tag fid, (dispatchOnce fs ⟨tag, .TReadLink fid⟩ fids).1 =
      match lookupFid fids fid with
      | some f => fs.rreadlink f
      | none => .error (.No EBADF)) ∧
    (∀ tag fid req_mask, (dispatchOnce fs ⟨tag, .TGetAttr fid req_mask⟩ fids).1 =
      match lookupFid fids fid with
      | some f => fs.rgetattr f req_mask
      | none => .error (.No EBADF)) ∧
    (∀ tag fid valid stat, (dispatchOnce fs ⟨tag, .TSetAttr fid valid stat⟩ fids).1 =
      match lookupFid fids fid with
      | some f => fs.rsetattr f valid stat
      | none => .error (.No EBADF)) ∧
    (∀ tag fid nf name, (dispatchOnce fs ⟨tag, .TxAttrWalk fid nf name⟩ fids).1 =
      match lookupFid fids fid with
      | some f => fs.rxattrwalk f ⟨nf, fs.fidDefault⟩ name
      | none => .error (.No EBADF)) ∧
    (∀ tag fid name attr_size flags,
      (dispatchOnce fs ⟨tag, .TxAttrCreate fid name attr_size flags⟩ fids).1 =
      match lookupFid fids fid with
      | some f => fs.rxattrcreate f name attr_size flags
      | none => .error (.No EBADF)) ∧
    (∀ tag fid offset count, (dispatchOnce fs ⟨tag, .TReadDir fid offset count⟩ fids).1 =
      match lookupFid fids fid with
      | some f => fs.rreaddir f offset count
      | none => .error (.No EBADF)) ∧
    (∀ tag fid, (dispatchOnce fs ⟨tag, .TFSync fid⟩ fids).1 =
      match lookupFid fids fid with
      | some f => fs.rfsync f
      | none => .error (.No EBADF)) ∧
    (∀ tag fid flock, (dispatchOnce fs ⟨tag, .TLock fid flock⟩ fids).1 =
      match lookupFid fids fid with
      | some f => fs.rlock f flock
      | none => .error (.No EBADF)) ∧
    (∀ tag fid flock, (dispatchOnce fs ⟨tag, .TGetLock fid flock⟩ fids).1 =
      match lookupFid fids fid with
      | some f => fs.rgetlock f flock
      | none => .error (.No EBADF)) ∧
    (∀ tag dfid fid name, (dispatchOnce fs ⟨tag, .TLink dfid fid name⟩ fids).1 =
      match lookupFid fids dfid with
      | some d =>
          match lookupFid fids fid with
          | some f => fs.rlink d f name
          | none => .error (.No EBADF)
      | none => .error (.No EBADF)) ∧
    (∀ tag dfid name mode gid, (dispatchOnce fs ⟨tag, .TMkDir dfid name mode gid⟩ fids).1 =
      match lookupFid fids dfid with
      | some f => fs.rmkdir f name mode gid
      | none => .error (.No EBADF)) ∧
    (∀ tag olddirfid oldname newdirfid newname,
      (dispatchOnce fs ⟨tag, .TRenameAt olddirfid oldname newdirfid newname⟩ fids).1 =
      match lookupFid fids olddirfid with
      | some o =>
          match lookupFid fids newdirfid with
          | some n => fs.rrenameat o oldname n newname
          | none => .error (.No EBADF)
      | none => .error (.No EBADF)) ∧
    (∀ tag dirfd name flags, (dispatchOnce fs ⟨tag, .TUnlinkAt dirfd name flags⟩ fids).1 =
      match lookupFid fids dirfd with
      | some f => fs.runlinkat f name flags
      | none => .error (.No EBADF)) ∧
    (∀ tag afid uname aname n_uname,
      (dispatchOnce fs ⟨tag, .TAuth afid uname aname n_uname⟩ fids).1 =
        fs.rauth ⟨afid, fs.fidDefault⟩ uname aname n_uname) ∧
    (∀ tag fid afid uname aname n_uname,
      (dispatchOnce fs ⟨tag, .TAttach fid afid uname aname n_uname⟩ fids).1 =
        fs.rattach ⟨fid, fs.fidDefault⟩ none uname aname n_uname) ∧
    (∀ tag msize version, (dispatchOnce fs ⟨tag, .TVersion msize version⟩ fids).1 =
        fs.rversion msize version) ∧
    (∀ tag oldtag, (dispatchOnce fs ⟨tag, .TFlush oldtag⟩ fids).1 =
        fs.rflush none) ∧
    (∀ tag fid nf wnames, (dispatchOnce fs ⟨tag, .TWalk fid nf wnames⟩ fids).1 =
      match lookupFid fids fid with
      | some f => fs.rwalk f ⟨nf, fs.fidDefault⟩ wnames
      | none => .error (.No EBADF)) ∧
    (∀ tag fid offset count, (dispatchOnce fs ⟨tag, .TRead fid offset count⟩ fids).1 =
      match lookupFid fids fid with
      | some f => fs.rread f offset count
      | none => .error (.No EBADF)) ∧
    (∀ tag fid offset data, (dispatchOnce fs ⟨tag, .TWrite fid offset data⟩ fids).1 =
      match lookupFid fids fid with
      | some f => fs.rwrite f offset data
      | none => .error (.No EBADF)) ∧
    (∀ tag fid, (dispatchOnce fs ⟨tag, .TClunk fid⟩ fids).1 =
      match lookupFid fids fid with
      | some f => fs.rclunk f
      | none => .error (.No EBADF)) ∧
    (∀ tag fid, (dispatchOnce fs ⟨tag, .TRemove fid⟩ fids).1 =
      match lookupFid fids fid with
      | some f => fs.rremove f
      | none => .error (.No EBADF)) := by
  refine ⟨?_, ?_, ?_, ?_, ?_, ?_, ?_, ?_, ?_, ?_, ?_, ?_, ?_, ?_, ?_, ?_, ?_,
    ?_, ?_, ?_, ?_, ?_, ?_, ?_, ?_, ?_, ?_, ?_⟩
  · intro tag fid
    rw [dispatchOnce_fst_mk]; simp only [dispatchResponse]
  · intro tag fid flags
    rw [dispatchOnce_fst_mk]; simp only [dispatchResponse]
  · intro tag fid name flags mode gid
    rw [dispatchOnce_fst_mk]; simp only [dispatchResponse]
  · intro tag fid name symtgt gid
    rw [dispatchOnce_fst_mk]; simp only [dispatchResponse]
  · intro tag dfid name mode major minor gid
    rw [dispatchOnce_fst_mk]; simp only [dispatchResponse]
  · intro tag fid dfid name
    rw [dispatchOnce_fst_mk]; simp only [dispatchResponse]
  · intro tag fid
    rw [dispatchOnce_fst_mk]; simp only [dispatchResponse]
  · intro tag fid req_mask
    rw [dispatchOnce_fst_mk]; simp only [dispatchResponse]
  · intro tag fid valid stat
    rw [dispatchOnce_fst_mk]; simp only [dispatchResponse]
  · intro tag fid nf name
    rw [dispatchOnce_fst_mk]; simp only [dispatchResponse]
    cases lookupFid fids fid <;> rfl
  · intro tag fid name attr_size flags
    rw [dispatchOnce_fst_mk]; simp only [dispatchResponse]
  · intro tag fid offset count
    rw [dispatchOnce_fst_mk]; simp only [dispatchResponse]
  · intro tag fid
    rw [dispatchOnce_fst_mk]; simp only [dispatchResponse]
  · intro tag fid flock
    rw [dispatchOnce_fst_mk]; simp only [dispatchResponse]
  · intro tag fid flock
    rw [dispatchOnce_fst_mk]; simp only [dispatchResponse]
  · intro tag dfid fid name
    rw [dispatchOnce_fst_mk]; simp only [dispatchResponse]
  · intro tag dfid name mode gid
    rw [dispatchOnce_fst_mk]; simp only [dispatchResponse]
  · intro tag olddirfid oldname newdirfid newname
    rw [dispatchOnce_fst_mk]; simp only [dispatchResponse]
  · intro tag dirfd name flags
    rw [dispatchOnce_fst_mk]; simp only [dispatchResponse]
  · intro tag afid uname aname n_uname
    rw [dispatchOnce_fst_mk]; rfl
  · intro tag fid afid uname aname n_uname
    rw [dispatchOnce_fst_mk]; rfl
  · intro tag msize version
    rw [dispatchOnce_fst_mk]; rfl
  · intro tag oldtag
    rw [dispatchOnce_fst_mk]; rfl
  · intro tag fid nf wnames
    rw [dispatchOnce_fst_mk]; simp only [dispatchResponse]
    cases lookupFid fids fid <;> rfl
  · intro tag fid offset count
    rw [dispatchOnce_fst_mk]; simp only [dispatchResponse]
  · intro tag fid offset data
    rw [dispatchOnce_fst_mk]; simp only [dispatchResponse]
  · intro tag fid
    rw [dispatchOnce_fst_mk]; simp only [dispatchResponse]
  · intro tag fid
    rw [dispatchOnce_fst_mk]; simp only [dispatchResponse]

end Rs9p
